import Mathlib

/-!
Verification of the rusty-uevr core binding layer.

The development below is a shallow embedding of src/api/mod.rs together
with the code generated by the define_object macro of macros/src/lib.rs.
Raw C pointers are modelled as natural numbers with 0 as the null
pointer.  Every call that crosses the C ABI into the host (find_uobject,
is_a, get_outer, get_class, get_fname) is taken as a function in an
explicit environment, since the host is an external collaborator.
Panics (unwrap, expect) are modelled as a none / Except.error result.
-/

namespace RustyUEVR

/-- Raw C pointers are modelled as natural numbers; 0 models the null pointer. -/
abbrev RawPtr := Nat

/-- A generated handle struct: define_object emits, for every foreign type,
a struct holding one raw pointer field.  Identity is the pointer value. -/
structure Handle where
  ptr : RawPtr
deriving DecidableEq, Repr

/-- Host behaviour reachable through the SDK function tables.  These are
foreign calls, so the embedding takes them as an environment:
findUObject models uobject_array.find_uobject (result 0 = registry lookup
failed), isA models UObjectFunctions.is_a, outer models
UObjectFunctions.get_outer, classOf models UObjectFunctions.get_class,
and fname models get_fname composed with FName.to_string. -/
structure HostEnv where
  findUObject : String → RawPtr
  isA : RawPtr → RawPtr → Bool
  outer : RawPtr → RawPtr
  classOf : RawPtr → RawPtr
  fname : RawPtr → String

namespace Ptr

/-- Ptr::from_ptr of the generated impl: wraps the raw pointer. -/
def from_ptr (p : RawPtr) : Handle := ⟨p⟩

/-- Ptr::to_ptr of the generated impl: returns the wrapped pointer. -/
def to_ptr (h : Handle) : RawPtr := h.ptr

/-- Ptr::is_invalid: self.to_ptr().is_null(). -/
def is_invalid (h : Handle) : Bool := decide (to_ptr h = 0)

/-- Ptr::from_ptr_safe: None when the pointer is null, otherwise
Some(Self::from_ptr(ptr)). -/
def from_ptr_safe (p : RawPtr) : Option Handle :=
  if p = 0 then none else some (from_ptr p)

end Ptr

/-- API::find_uobject: calls uobject_array.find_uobject with the encoded
name and returns None on a null result, Some(T::from_ptr(ptr)) otherwise. -/
def find_uobject (env : HostEnv) (name : String) : Option Handle :=
  if env.findUObject name = 0 then none else some (Ptr.from_ptr (env.findUObject name))

namespace StaticClass

/-- StaticClass::static_class_safe as generated by define_object for a type
carrying an @class binding with lookup key classKey:
API::get().find_uobject(classKey). -/
def static_class_safe (env : HostEnv) (classKey : String) : Option Handle :=
  find_uobject env classKey

/-- StaticClass::is_a: delegates the comparison to the host through the
UObject function table. -/
def is_a (env : HostEnv) (h : Handle) (cmp : Handle) : Bool :=
  env.isA (Ptr.to_ptr h) (Ptr.to_ptr cmp)

end StaticClass

namespace Ptr

/-- Ptr::cast: evaluates T::static_class(), which is
static_class_safe().unwrap() — the outer Option models that unwrap, none
being the panic.  On a resolved class the result is
Some(T::from_ptr(self.to_ptr())) when is_a holds and None otherwise. -/
def cast (env : HostEnv) (h : Handle) (targetKey : String) : Option (Option Handle) :=
  match StaticClass.static_class_safe env targetKey with
  | none => none
  | some c => some (if StaticClass.is_a env h c then some (from_ptr (to_ptr h)) else none)

end Ptr

/-- The API singleton contents: the param pointer and the sdk pointer that
initialize reads out of the param block. -/
structure API where
  param : RawPtr
  sdk : RawPtr
deriving DecidableEq, Repr

namespace API

/-- API::initialize: under the INSTANCE lock, when the singleton is empty
it stores API { param, sdk: (*param).sdk }; when the singleton is already
populated it stores nothing.  sdkOf models the read of the sdk field off
the param block; the result is the singleton contents after the call. -/
def init (sdkOf : RawPtr → RawPtr) (param : RawPtr) (inst : Option API) : Option API :=
  match inst with
  | none => some { param := param, sdk := sdkOf param }
  | some a => some a

/-- API::get: clones the singleton contents; the expect call panics when
the singleton was never initialized, modelled as Except.error carrying the
expect message. -/
def get (inst : Option API) : Except String API :=
  match inst with
  | none => Except.error "tried to access the API before it was initialized"
  | some a => Except.ok a

end API

namespace LazySlot

/-- The initialize generated by define_object for a type whose @functions
binding resolves from a named field of the global SDK data: the per-type
static slot starts null; initialize writes the SDK field value into the
slot when the slot is null, then returns the slot contents.  Result:
(returned table pointer, slot contents after the call). -/
def init (sdkField : RawPtr) (slot : RawPtr) : RawPtr × RawPtr :=
  if slot = 0 then (sdkField, sdkField) else (slot, slot)

/-- The slot contents after n successive initialize calls starting from
slot, the SDK field holding the fixed value sdkField throughout. -/
def slotAfter (sdkField slot : RawPtr) : Nat → RawPtr
  | 0 => slot
  | n + 1 => (init sdkField (slotAfter sdkField slot n)).2

end LazySlot

/-- The TArray descriptor: data pointer, element count, capacity. -/
structure TArray where
  data : RawPtr
  count : Int
  capacity : Int
deriving DecidableEq, Repr

/-- A deallocation event observable at the allocator boundary: hostFree p
is a call to FMalloc::get().free(p) (the host allocator), localFree p is a
deallocation of p by the Rust global allocator (what a Vec performs on its
buffer when dropped). -/
inductive FreeEvent where
  | hostFree (p : RawPtr)
  | localFree (p : RawPtr)
deriving DecidableEq, Repr

namespace TArray

/-- TArray::empty: self.count == 0 || self.data.is_null(). -/
def empty (t : TArray) : Bool := t.count == 0 || t.data == 0

/-- The Drop impl for TArray: when data is non-null it calls
FMalloc::get().free(self.data); the result lists the allocator calls that
the drop performs, in order. -/
def dropEvents (t : TArray) : List FreeEvent :=
  if t.data = 0 then [] else [FreeEvent.hostFree t.data]

/-- TArray::to_vec: takes self by value and builds
Vec::from_raw_parts(self.data, self.count, self.capacity).  The field
reads copy the raw triple, so self stays fully initialized; TArray
implements Drop and to_vec neither calls mem::forget(self) nor wraps self
in ManuallyDrop, so Rust runs the Drop impl on self when to_vec returns.
First component: the raw triple now owned by the returned Vec; second
component: the allocator calls made while to_vec runs. -/
def to_vec (t : TArray) : (RawPtr × Int × Int) × List FreeEvent :=
  ((t.data, t.count, t.capacity), dropEvents t)

end TArray

/-- Drop of a Vec built by Vec::from_raw_parts(data, count, capacity): for
a nonzero capacity the Vec deallocates its buffer through the Rust global
allocator. -/
def vecDropEvents (v : RawPtr × Int × Int) : List FreeEvent :=
  if v.2.2 = 0 then [] else [FreeEvent.localFree v.1]

/-- The consume-then-drop sequence: call to_vec on the array (the original
binding is moved into to_vec, so the end of its scope performs nothing by
itself) and later drop the returned Vec.  Lists every allocator call in
order. -/
def consumeThenDropEvents (t : TArray) : List FreeEvent :=
  (TArray.to_vec t).2 ++ vecDropEvents (TArray.to_vec t).1

/-- Number of deallocations, host or local, performed on pointer p in the
given trace. -/
def freesOn (p : RawPtr) (trace : List FreeEvent) : Nat :=
  trace.countP (fun e => decide (e = FreeEvent.hostFree p ∨ e = FreeEvent.localFree p))

/-- RUObject::get_class: UClass::from_handle_safe applied to the result of
the host get_class call on self. -/
def get_class (env : HostEnv) (selfPtr : RawPtr) : Option Handle :=
  if env.classOf selfPtr = 0 then none else some (Ptr.from_ptr (env.classOf selfPtr))

/-- The class path of the @class binding of UObject, used by get_full_name
through class.cast::<UObject>(). -/
def objectClassKey : String := "Class /Script/CoreUObject.Object"

/-- The while loop of RUObject::get_full_name: current holds the raw
pointer of the latest get_outer result (0 encodes None, which exits the
loop); the loop breaks when the next outer equals the object itself, and
otherwise prefixes the outer short name to the accumulated name.  fuel
bounds the number of iterations; none = fuel exhausted. -/
def fullNameLoop (env : HostEnv) (selfPtr : RawPtr) : String → RawPtr → Nat → Option String
  | _, _, 0 => none
  | name, current, fuel + 1 =>
    if current = 0 then some name
    else if current = selfPtr then some name
    else fullNameLoop env selfPtr (env.fname current ++ "." ++ name) (env.outer current) fuel

/-- RUObject::get_full_name: resolves
self.get_class().and_then(|class| class.cast::<UObject>()), returning ""
when that is None; otherwise walks the outer chain prefixing short names
and prepends the class short name.  The result none models either the
panic inside the cast (static_class unwrap) or an outer walk that runs out
of fuel. -/
def get_full_name (env : HostEnv) (selfPtr : RawPtr) (fuel : Nat) : Option String :=
  match get_class env selfPtr with
  | none => some ""
  | some cls =>
    match Ptr.cast env cls objectClassKey with
    | none => none
    | some none => some ""
    | some (some clsObj) =>
      match fullNameLoop env selfPtr (env.fname selfPtr) (env.outer selfPtr) fuel with
      | none => none
      | some name => some (env.fname (Ptr.to_ptr clsObj) ++ " " ++ name)

/-- An outer chain certificate: isOuterChainB env selfPtr start chain holds
when start is the raw get_outer result of the object, the successive
elements of chain are the raw outer pointers encountered (each non-null
and distinct from the object itself), and the outer of the last element is
null. -/
def isOuterChainB (env : HostEnv) (selfPtr : RawPtr) : RawPtr → List RawPtr → Bool
  | start, [] => start == 0
  | start, o :: rest =>
    start == o && !(o == 0) && !(o == selfPtr) && isOuterChainB env selfPtr (env.outer o) rest

/-- The while loop of get_full_name, run along a certified outer chain with
enough fuel, terminates and folds the short names of the chain onto the
accumulated name, innermost last. -/
theorem fullNameLoop_chain (env : HostEnv) (selfPtr : RawPtr) (chain : List RawPtr) :
    ∀ (start : RawPtr) (name : String) (fuel : Nat),
      isOuterChainB env selfPtr start chain = true → chain.length < fuel →
      fullNameLoop env selfPtr name start fuel
        = some (chain.foldl (fun n o => env.fname o ++ "." ++ n) name) := by
  induction chain with
  | nil =>
    intro start name fuel hch hf
    have h0 : start = 0 := by simpa [isOuterChainB] using hch
    obtain ⟨f, rfl⟩ : ∃ f, fuel = f + 1 := ⟨fuel - 1, by omega⟩
    simp [fullNameLoop, h0]
  | cons o rest ih =>
    intro start name fuel hch hf
    have hch' : start = o ∧ (¬o = 0 ∧ ¬o = selfPtr)
        ∧ isOuterChainB env selfPtr (env.outer o) rest = true := by
      simpa [isOuterChainB, Bool.and_assoc, and_assoc] using hch
    obtain ⟨hst, ⟨ho0, hos⟩, hrest⟩ := hch'
    subst hst
    obtain ⟨f, rfl⟩ : ∃ f, fuel = f + 1 := ⟨fuel - 1, by omega⟩
    rw [fullNameLoop, if_neg ho0, if_neg hos]
    have hlen : rest.length < f := by
      have := hf
      simp only [List.length_cons] at this
      omega
    simpa using ih (env.outer start) (env.fname start ++ "." ++ name) f hrest hlen

/-- C1: for a handle h and a target handle type bound through @class to a
key that the registry lookup resolves, the safe downcast cast returns
Some(from_ptr(h.to_ptr())) exactly when the host is_a comparison reports
true, and returns None — with no panic — exactly when is_a reports
false. -/
theorem cast_matches_is_a (env : HostEnv) (h : Handle) (key : String)
    (hbind : env.findUObject key ≠ 0) :
    (Ptr.cast env h key = some (some (Ptr.from_ptr (Ptr.to_ptr h)))
      ↔ StaticClass.is_a env h (Ptr.from_ptr (env.findUObject key)) = true)
    ∧ (Ptr.cast env h key = some none
      ↔ StaticClass.is_a env h (Ptr.from_ptr (env.findUObject key)) = false) := by
  have hsc : StaticClass.static_class_safe env key
      = some (Ptr.from_ptr (env.findUObject key)) := by
    simp [StaticClass.static_class_safe, find_uobject, hbind]
  by_cases hia : StaticClass.is_a env h (Ptr.from_ptr (env.findUObject key)) = true
  · simp [Ptr.cast, hsc, hia]
  · simp only [Bool.not_eq_true] at hia
    simp [Ptr.cast, hsc, hia]

/-- Environment for the cast witness: every registry lookup yields class
pointer 5, and the host reports is_a true exactly for object pointer 7
against class pointer 5. -/
def c1Env : HostEnv where
  findUObject := fun _ => 5
  isA := fun o c => o == 7 && c == 5
  outer := fun _ => 0
  classOf := fun _ => 0
  fname := fun _ => ""

/-- Witness for C1 at a concrete environment, handle 7 and a resolvable
class key. -/
theorem cast_matches_is_a_witness :
    c1Env.findUObject "Class /Script/CoreUObject.Object" ≠ 0
    ∧ ((Ptr.cast c1Env ⟨7⟩ "Class /Script/CoreUObject.Object"
          = some (some (Ptr.from_ptr (Ptr.to_ptr ⟨7⟩)))
        ↔ StaticClass.is_a c1Env ⟨7⟩
            (Ptr.from_ptr (c1Env.findUObject "Class /Script/CoreUObject.Object")) = true)
      ∧ (Ptr.cast c1Env ⟨7⟩ "Class /Script/CoreUObject.Object" = some none
        ↔ StaticClass.is_a c1Env ⟨7⟩
            (Ptr.from_ptr (c1Env.findUObject "Class /Script/CoreUObject.Object")) = false)) :=
  ⟨by decide, cast_matches_is_a c1Env ⟨7⟩ "Class /Script/CoreUObject.Object" (by decide)⟩

/-- C2, against the code as written: consuming the descriptor
TArray{data=4096,count=1,capacity=1} through to_vec drops the consumed
array when to_vec returns, calling the host free on the data pointer, and
the returned Vec deallocates the very same pointer again when it is
dropped — the buffer is freed twice in the consume-then-drop sequence,
and the free performed by the consumed array comes from its own drop
path. -/
theorem to_vec_consumed_drop_frees :
    (TArray.to_vec { data := 4096, count := 1, capacity := 1 }).2
      = [FreeEvent.hostFree 4096]
    ∧ freesOn 4096 (consumeThenDropEvents { data := 4096, count := 1, capacity := 1 }) = 2 := by
  decide

/-- C3: with the SDK field fixed at a non-null value, the generated lazy
resolver returns that value on the first call and after any number of
further calls, and a slot that is already non-null is never reassigned. -/
theorem init_resolves_once (sdkField s : RawPtr) (n : Nat)
    (hfield : sdkField ≠ 0) (hs : s ≠ 0) :
    (LazySlot.init sdkField 0).1 = sdkField
    ∧ (LazySlot.init sdkField (LazySlot.slotAfter sdkField 0 n)).1 = sdkField
    ∧ (LazySlot.init sdkField s).2 = s := by
  refine ⟨by simp [LazySlot.init], ?_, by simp [LazySlot.init, hs]⟩
  have hmem : LazySlot.slotAfter sdkField 0 n = 0
      ∨ LazySlot.slotAfter sdkField 0 n = sdkField := by
    induction n with
    | zero => exact Or.inl rfl
    | succ k ih =>
      rcases ih with h0 | hsd
      · exact Or.inr (by simp [LazySlot.slotAfter, h0, LazySlot.init])
      · exact Or.inr (by simp [LazySlot.slotAfter, hsd, LazySlot.init, hfield])
  rcases hmem with h0 | hsd
  · simp [h0, LazySlot.init]
  · simp [hsd, LazySlot.init, hfield]

/-- Witness for C3 at SDK field value 42, three successive calls, and a
pre-filled slot 7. -/
theorem init_resolves_once_witness :
    (42 : RawPtr) ≠ 0 ∧ (7 : RawPtr) ≠ 0
    ∧ (LazySlot.init 42 0).1 = 42
    ∧ (LazySlot.init 42 (LazySlot.slotAfter 42 0 3)).1 = 42
    ∧ (LazySlot.init 42 7).2 = 7 := by
  have h := init_resolves_once 42 7 3 (by decide) (by decide)
  exact ⟨by decide, by decide, h.1, h.2.1, h.2.2⟩

/-- C4: when the class lookup and the cast to UObject succeed,
get_full_name walks the outer chain toward the root, prefixing each outer
short name, and yields the class short name, a space, then the dot-joined
chain from root down to the object short name; an object whose outer is
itself breaks out immediately and yields its class short name followed by
its own short name. -/
theorem get_full_name_outer_chain (env : HostEnv) (selfPtr : RawPtr)
    (chain : List RawPtr) (fuel : Nat)
    (hcls : env.classOf selfPtr ≠ 0)
    (hkey : env.findUObject objectClassKey ≠ 0)
    (hisa : env.isA (env.classOf selfPtr) (env.findUObject objectClassKey) = true) :
    (isOuterChainB env selfPtr (env.outer selfPtr) chain = true → chain.length < fuel →
      get_full_name env selfPtr fuel
        = some (env.fname (env.classOf selfPtr) ++ " "
            ++ chain.foldl (fun n o => env.fname o ++ "." ++ n) (env.fname selfPtr)))
    ∧ (env.outer selfPtr = selfPtr → 0 < fuel →
      get_full_name env selfPtr fuel
        = some (env.fname (env.classOf selfPtr) ++ " " ++ env.fname selfPtr)) := by
  have hgc : get_class env selfPtr = some (Ptr.from_ptr (env.classOf selfPtr)) := by
    simp [get_class, hcls]
  have hcast : Ptr.cast env (Ptr.from_ptr (env.classOf selfPtr)) objectClassKey
      = some (some (Ptr.from_ptr (env.classOf selfPtr))) := by
    simp [Ptr.cast, StaticClass.static_class_safe, find_uobject, hkey,
      StaticClass.is_a, Ptr.from_ptr, Ptr.to_ptr, hisa]
  constructor
  · intro hch hf
    simp only [get_full_name, hgc, hcast,
      fullNameLoop_chain env selfPtr chain (env.outer selfPtr) (env.fname selfPtr) fuel hch hf]
    rfl
  · intro hself hfuel
    obtain ⟨f, rfl⟩ : ∃ f, fuel = f + 1 := ⟨fuel - 1, by omega⟩
    have hloop : fullNameLoop env selfPtr (env.fname selfPtr) (env.outer selfPtr) (f + 1)
        = some (env.fname selfPtr) := by
      rw [hself, fullNameLoop]
      by_cases h0 : selfPtr = 0
      · rw [if_pos h0]
      · rw [if_neg h0, if_pos rfl]
    simp only [get_full_name, hgc, hcast, hloop]
    rfl

/-- Environment for the full-name witness: object 1 sits inside 2 inside
3 with short names Leaf, Mid, Root; object 9 is its own outer with short
name Self; both have class 10 whose short name is Cls; the UObject class
lookup resolves to 100; the host reports every is_a comparison true. -/
def c4Env : HostEnv where
  findUObject := fun _ => 100
  isA := fun _ _ => true
  outer := fun p => if p = 1 then 2 else if p = 2 then 3 else if p = 9 then 9 else 0
  classOf := fun p => if p = 1 then 10 else if p = 9 then 10 else 0
  fname := fun p =>
    if p = 1 then "Leaf" else if p = 2 then "Mid" else if p = 3 then "Root"
    else if p = 9 then "Self" else if p = 10 then "Cls" else ""

/-- Witness for C4: the Leaf-Mid-Root chain yields the dotted full name
and the self-outer object yields its own short name after the break. -/
theorem get_full_name_outer_chain_witness :
    get_full_name c4Env 1 10 = some "Cls Root.Mid.Leaf"
    ∧ get_full_name c4Env 9 10 = some "Cls Self" := by
  have h1 := (get_full_name_outer_chain c4Env 1 [2, 3] 10 (by decide) (by decide) (by decide)).1
    (by decide) (by decide)
  have h9 := (get_full_name_outer_chain c4Env 9 [] 10 (by decide) (by decide) (by decide)).2
    (by decide) (by decide)
  exact ⟨h1.trans (by decide), h9.trans (by decide)⟩

/-- C5: re-entrant initialization of the singleton is a no-op: when the
singleton is already populated, a second initialize leaves the stored
state unchanged and get afterwards returns the same state as before. -/
theorem init_reentrant_noop (sdkOf : RawPtr → RawPtr) (p : RawPtr) (a : API) :
    API.init sdkOf p (some a) = some a
    ∧ API.get (API.init sdkOf p (some a)) = API.get (some a) :=
  ⟨rfl, rfl⟩

/-- C6: accessing the API before initialization fails fast: get on the
empty singleton produces the fatal expect panic and never an API value. -/
theorem get_uninitialized_panics :
    API.get none = Except.error "tried to access the API before it was initialized" := rfl

/-- C7: the generated from_ptr and to_ptr round-trip on every handle, and
handle equality coincides with pointer equality. -/
theorem from_ptr_to_ptr_roundtrip (h g : Handle) :
    Ptr.from_ptr (Ptr.to_ptr h) = h ∧ (h = g ↔ Ptr.to_ptr h = Ptr.to_ptr g) := by
  cases h
  cases g
  simp [Ptr.from_ptr, Ptr.to_ptr]

/-- C8: from_ptr_safe is None exactly on the null pointer and wraps
from_ptr on every non-null pointer. -/
theorem from_ptr_safe_null_case (p : RawPtr) :
    (p = 0 → Ptr.from_ptr_safe p = none)
    ∧ (p ≠ 0 → Ptr.from_ptr_safe p = some (Ptr.from_ptr p)) := by
  constructor <;> intro h <;> simp [Ptr.from_ptr_safe, h]

/-- Witness for C8 at the null pointer and at pointer 3. -/
theorem from_ptr_safe_null_case_witness :
    Ptr.from_ptr_safe 0 = none ∧ Ptr.from_ptr_safe 3 = some (Ptr.from_ptr 3) :=
  ⟨(from_ptr_safe_null_case 0).1 rfl, (from_ptr_safe_null_case 3).2 (by decide)⟩

/-- C9: the canonical empty descriptor reports empty = true and its drop
path performs no host free call. -/
theorem empty_array_free_noop :
    TArray.empty { data := 0, count := 0, capacity := 0 } = true
    ∧ TArray.dropEvents { data := 0, count := 0, capacity := 0 } = [] := by
  decide

/-- C10: get_full_name returns the empty string, without panicking or
walking the chain, both when the class lookup yields a null handle and
when the resolved class fails the is_a cast to UObject. -/
theorem get_full_name_null_class (env : HostEnv) (selfPtr : RawPtr) (fuel : Nat) :
    (env.classOf selfPtr = 0 → get_full_name env selfPtr fuel = some "")
    ∧ (env.findUObject objectClassKey ≠ 0 →
        env.isA (env.classOf selfPtr) (env.findUObject objectClassKey) = false →
        get_full_name env selfPtr fuel = some "") := by
  constructor
  · intro h
    simp [get_full_name, get_class, h]
  · intro hkey hisa
    by_cases hc : env.classOf selfPtr = 0
    · simp [get_full_name, get_class, hc]
    · simp [get_full_name, get_class, hc, Ptr.cast, StaticClass.static_class_safe,
        find_uobject, hkey, StaticClass.is_a, Ptr.from_ptr, Ptr.to_ptr, hisa]

/-- Environment for the null-class witness: object 1 has no class, object
2 has class 10, the UObject class lookup resolves to 100, and the host
reports every is_a comparison false. -/
def c10Env : HostEnv where
  findUObject := fun _ => 100
  isA := fun _ _ => false
  outer := fun _ => 0
  classOf := fun p => if p = 2 then 10 else 0
  fname := fun _ => "N"

/-- Witness for C10 at an object without a class and an object whose class
fails the UObject cast. -/
theorem get_full_name_null_class_witness :
    get_full_name c10Env 1 5 = some "" ∧ get_full_name c10Env 2 5 = some "" :=
  ⟨(get_full_name_null_class c10Env 1 5).1 (by decide),
   (get_full_name_null_class c10Env 2 5).2 (by decide) (by decide)⟩

end RustyUEVR
